import Mathlib

/-!
Verification development for the SIH25165 Temple Pilgrimage Crowd Management
dashboard (`src/app.py`).  The application is a single-file Streamlit app:
a flat tabular store of "pulse" submissions re-read and rewritten wholesale
on every interaction, six pages (submission form, temple overview, crowd
alerts, pilgrim info, export, recent logs), an IsolationForest outlier pass,
and a synchronous SMTP alert call.

The shallow embedding below renders the store as a `List PulseRecord`,
each page as a pure function from the store (plus explicit parameters for
the external effects: the random source, the fitted anomaly model, the SMTP
outcome) to the page view together with the store persisted afterwards.
-/

set_option autoImplicit false

namespace TemplePulse

/-- The fixed list of temple sites (`TEMPLES` in `app.py`, line 15). -/
def TEMPLES : List String := ["Somnath", "Dwarka", "Ambaji", "Pavagadh"]

/-- Options of the payment-mode multiselect widget (`app.py`, line 67). -/
def PAYMENT_OPTIONS : List String := ["Cash", "Card", "UPI", "Wallet"]

/-- One stored row of `temple_pulse.csv`: the columns created by `load_data`
and filled by the submission form.  The timestamp is modelled as a natural
clock reading; `visitor_count` and `queue_time` come from integer
`st.number_input` widgets with `min_value=0`, hence `Nat`. -/
structure PulseRecord where
  timestamp : Nat
  temple : String
  zone : String
  visitor_count : Nat
  queue_time : Nat
  top_services : String
  payment_modes : String
  crowd_index : Nat
  peak_hour_flag : Bool
  deriving Repr, DecidableEq

/-- The persisted store: the full history of submissions, in order. -/
abbrev Store := List PulseRecord

/-- The raw values collected by the widgets of the `pulse_form`
(`app.py`, lines 61-70).  `payment_modes` is the selection of the
multiselect, still a list before joining. -/
structure PulseForm where
  temple : String
  zone : String
  visitor_count : Nat
  queue_time : Nat
  top_services : String
  payment_modes : List String
  crowd_index : Nat
  peak_hour_flag : Bool
  deriving Repr, DecidableEq

/-- The constraints the input widgets themselves enforce at entry time:
the selectbox only offers `TEMPLES`, the slider is clamped to `0..10`,
the multiselect only offers `PAYMENT_OPTIONS`, and the number inputs have
`min_value=0` (already captured by `Nat`). -/
def widgetConstraints (f : PulseForm) : Prop :=
  f.temple ∈ TEMPLES ∧ f.crowd_index ≤ 10 ∧
    ∀ m ∈ f.payment_modes, m ∈ PAYMENT_OPTIONS

instance (f : PulseForm) : Decidable (widgetConstraints f) := by
  unfold widgetConstraints; infer_instance

/-- The `new_entry` row built on submission (`app.py`, lines 74-84):
`timestamp` is `datetime.datetime.now()` (the `now` argument here) and
`payment_modes` is the comma-join of the multiselect value. -/
def mkNewEntry (now : Nat) (f : PulseForm) : PulseRecord :=
  { timestamp := now
    temple := f.temple
    zone := f.zone
    visitor_count := f.visitor_count
    queue_time := f.queue_time
    top_services := f.top_services
    payment_modes := String.intercalate "," f.payment_modes
    crowd_index := f.crowd_index
    peak_hour_flag := f.peak_hour_flag }

/-- The submission path (`app.py`, lines 72-86): load the store, build
`new_entry`, `pd.concat([data, new_entry], ignore_index=True)`, save.
The function returns the store that `save_data` persists. -/
def submitPulse (store : Store) (now : Nat) (f : PulseForm) : Store :=
  store ++ [mkNewEntry now f]

end TemplePulse

namespace TemplePulse

/-- C1: submitting the pulse form once appends exactly one row: the row
count grows by one and the previously stored rows are still there, in
order, as the prefix of the new store. -/
theorem submitPulse_appends_one_row (store : Store) (now : Nat) (f : PulseForm) :
    (submitPulse store now f).length = store.length + 1 ∧
      (submitPulse store now f).take store.length = store := by
  constructor
  · simp [submitPulse]
  · simp [submitPulse, List.take_left]

end TemplePulse

namespace TemplePulse

/-- Mean of a numeric column as pandas computes it (`Series.mean()`):
the sum of the values divided by their count, and `NaN` (modelled as
`none`) on an empty column. -/
def pdMean (l : List ℚ) : Option ℚ :=
  if l.isEmpty then none else some (l.foldl (· + ·) 0 / l.length)

/-- Round-half-to-even on rationals, the rounding rule of Python `round`. -/
def roundHalfEven (q : ℚ) : ℤ :=
  if Int.fract q < 1 / 2 then ⌊q⌋
  else if 1 / 2 < Int.fract q then ⌊q⌋ + 1
  else if ⌊q⌋ % 2 = 0 then ⌊q⌋ else ⌊q⌋ + 1

/-- Python `round(x, 2)`: round to the nearest hundredth, ties to even. -/
def round2 (q : ℚ) : ℚ := (roundHalfEven (100 * q) : ℚ) / 100

/-- The rows of the Temple Overview page whose `temple` column equals the
selected temple (`data[data["temple"] == temple]`, `app.py` line 95). -/
def overviewFiltered (store : Store) (temple : String) : Store :=
  store.filter (fun r => r.temple == temple)

/-- The "Average Crowd Index" metric of the Temple Overview page
(`app.py` line 99): `round(filtered["crowd_index"].mean(), 2)`. -/
def overviewAvgCrowdIndex (store : Store) (temple : String) : Option ℚ :=
  (pdMean ((overviewFiltered store temple).map
    (fun r => (r.crowd_index : ℚ)))).map round2

/-- The "Average Queue Time" metric of the Temple Overview page
(`app.py` line 100): `round(filtered["queue_time"].mean(), 2)`. -/
def overviewAvgQueueTime (store : Store) (temple : String) : Option ℚ :=
  (pdMean ((overviewFiltered store temple).map
    (fun r => (r.queue_time : ℚ)))).map round2

/-- Arithmetic mean as the spec words it: sum over count of the values,
undefined on an empty list.  Stated independently of `pdMean` so that the
page metric can be compared against it. -/
def arithMean (l : List ℚ) : Option ℚ :=
  if l.isEmpty then none else some (l.sum / l.length)

/-- A concrete store of three Somnath rows with crowd indices 1, 1, 2:
their mean 4/3 does not survive rounding to two decimals. -/
def sampleRow (ts ci : Nat) : PulseRecord :=
  { timestamp := ts
    temple := "Somnath"
    zone := "Entry Gate"
    visitor_count := 100
    queue_time := 10
    top_services := "Darshan"
    payment_modes := "Cash"
    crowd_index := ci
    peak_hour_flag := false }

/-- Witness store for the C2 counterexample. -/
def c2Store : Store := [sampleRow 1 1, sampleRow 2 1, sampleRow 3 2]

/-- Folding addition from an accumulator equals the accumulator plus the sum. -/
theorem foldl_add_eq_add_sum (l : List ℚ) : ∀ a : ℚ, l.foldl (· + ·) a = a + l.sum := by
  induction l with
  | nil => simp
  | cons x xs ih => intro a; simp [List.foldl, ih, add_assoc]

/-- The pandas column mean is the arithmetic mean of the column. -/
theorem pdMean_eq_arithMean (l : List ℚ) : pdMean l = arithMean l := by
  unfold pdMean arithMean
  rw [foldl_add_eq_add_sum]
  simp

/-- C2 counterexample: on a store of three Somnath rows with crowd indices
1, 1, 2 the displayed Average Crowd Index is 1.33, not the arithmetic mean
4/3 of the filtered subset, so the displayed metric does not equal the
arithmetic mean. -/
theorem overviewAvg_ne_mean_counterexample :
    overviewAvgCrowdIndex c2Store "Somnath" ≠
      arithMean ((overviewFiltered c2Store "Somnath").map
        (fun r => (r.crowd_index : ℚ))) := by
  have hf : overviewFiltered c2Store "Somnath" = c2Store := by
    simp [overviewFiltered, c2Store, sampleRow]
  have hmap : (overviewFiltered c2Store "Somnath").map
      (fun r => (r.crowd_index : ℚ)) = [1, 1, 2] := by
    rw [hf]; simp [c2Store, sampleRow]
  have hmean : arithMean [(1:ℚ), 1, 2] = some (4 / 3) := by
    unfold arithMean; norm_num
  have hround : round2 (4 / 3) = 133 / 100 := by
    unfold round2 roundHalfEven
    norm_num [Int.fract]
  unfold overviewAvgCrowdIndex
  rw [hmap, pdMean_eq_arithMean, hmean]
  simp only [Option.map_some', hround]
  intro h
  have h2 := Option.some.inj h
  norm_num at h2

/-- C2 amended: the displayed Average Crowd Index and Average Queue Time of
the Temple Overview page equal the arithmetic mean of `crowd_index`,
respectively `queue_time`, over exactly the records whose temple equals the
selected temple, rounded to two decimal places (Python `round(x, 2)`,
half-to-even); on an empty filtered subset both are NaN (`none`). -/
theorem overviewAvg_eq_rounded_mean (store : Store) (temple : String) :
    overviewAvgCrowdIndex store temple =
      (arithMean ((overviewFiltered store temple).map
        (fun r => (r.crowd_index : ℚ)))).map round2 ∧
    overviewAvgQueueTime store temple =
      (arithMean ((overviewFiltered store temple).map
        (fun r => (r.queue_time : ℚ)))).map round2 := by
  constructor
  · unfold overviewAvgCrowdIndex
    rw [pdMean_eq_arithMean]
  · unfold overviewAvgQueueTime
    rw [pdMean_eq_arithMean]

end TemplePulse

namespace TemplePulse

/-- The feature matrix handed to `IsolationForest.fit_predict`
(`app.py` line 128): exactly the columns `visitor_count`, `queue_time`
and `crowd_index`, one triple per stored row, in store order. -/
def crowdAlertFeatures (store : Store) : List (Nat × Nat × Nat) :=
  store.map (fun r => (r.visitor_count, r.queue_time, r.crowd_index))

/-- An anomaly model: `fit_predict` as a function from the feature matrix
to one label per row (−1 marks an outlier).  `IsolationForest` is an
external randomized library call, so it enters the embedding as a
parameter. -/
def AnomalyModel : Type := List (Nat × Nat × Nat) → List Int

/-- Subject line of an alert email for a flagged row (`app.py` line 136). -/
def alertSubject (r : PulseRecord) : String :=
  "Temple Alert – " ++ r.temple ++ " Zone: " ++ r.zone

/-- Body of an alert email for a flagged row (`app.py` line 133). -/
def alertBody (r : PulseRecord) : String :=
  "Alert: Unusual crowd at " ++ r.temple ++ " – " ++ r.zone ++ " | Index " ++
    toString r.crowd_index ++ ", Queue " ++ toString r.queue_time ++ " mins"

/-- What a view of the Crowd Alerts page produces (`app.py` lines 121-138):
whether the insufficient-data warning fired, the feature matrix the model
was fitted on (if any), and the (subject, body) of each alert email sent,
one per row flagged −1. -/
structure AlertsView where
  insufficientWarning : Bool
  fitted : Option (List (Nat × Nat × Nat))
  emails : List (String × String)
  deriving Repr, DecidableEq

/-- The Crowd Alerts page (`app.py` lines 121-138): with fewer than 10 rows
only the warning is shown; otherwise the model is fitted on the three-column
feature matrix, the labels become the in-memory `anomaly` column
(`store.zip labels`), and each row labelled −1 yields one alert email. -/
def crowdAlertsPage (model : AnomalyModel) (store : Store) : AlertsView :=
  if store.length < 10 then
    { insufficientWarning := true, fitted := none, emails := [] }
  else
    let features := crowdAlertFeatures store
    let labels := model features
    let annotated := store.zip labels
    let alerts := annotated.filter (fun p => p.2 == -1)
    { insufficientWarning := false
      fitted := some features
      emails := alerts.map (fun p => (alertSubject p.1, alertBody p.1)) }

/-- Filtering a zip on its label component counts the matching labels when
the two lists have equal length. -/
theorem zip_filter_label_length {α : Type} (rs : List α) :
    ∀ ls : List Int, rs.length = ls.length →
      ((rs.zip ls).filter (fun p => p.2 == -1)).length =
        (ls.filter (fun z => z == -1)).length := by
  induction rs with
  | nil => intro ls h; cases ls with
    | nil => simp
    | cons y ys => simp at h
  | cons x xs ih =>
    intro ls h
    cases ls with
    | nil => simp at h
    | cons y ys =>
      simp only [List.length_cons, Nat.succ.injEq] at h
      by_cases hy : y = -1 <;>
        simp [List.zip_cons_cons, List.filter_cons, hy, ih ys h]

end TemplePulse

namespace TemplePulse

/-- An anomaly model that returns no labels; used as the concrete model
argument where the model is never consulted. -/
def nullModel : AnomalyModel := fun _ => []

/-- A store of ten Somnath rows with crowd indices 0..9. -/
def c3Store : Store := (List.range 10).map (fun i => sampleRow i i)

/-- A concrete model flagging exactly the first of ten rows. -/
def c3Model : AnomalyModel := fun _ => [-1, 1, 1, 1, 1, 1, 1, 1, 1, 1]

/-- C3 counterexample: on the empty store, a view of the Crowd Alerts page
fits no anomaly model at all (and sends no email), so it is not the case
that the model is fitted on every view for every store state. -/
theorem crowdAlerts_no_fit_on_empty_counterexample :
    (crowdAlertsPage nullModel []).fitted = none ∧
      (crowdAlertsPage nullModel []).emails = [] := by
  constructor <;> rfl

/-- C3 amended: on every view of the Crowd Alerts page over a store with at
least 10 records, the anomaly model is fitted over exactly the three numeric
columns `visitor_count`, `queue_time`, `crowd_index`, and one alert email is
sent for each row the model flags as an outlier (label −1); with fewer than
10 records no model is fitted. -/
theorem crowdAlerts_fits_and_emails_flagged (model : AnomalyModel) (store : Store)
    (h10 : 10 ≤ store.length)
    (hlen : (model (crowdAlertFeatures store)).length = store.length) :
    (crowdAlertsPage model store).fitted =
      some (store.map (fun r => (r.visitor_count, r.queue_time, r.crowd_index))) ∧
    (crowdAlertsPage model store).emails.length =
      ((model (crowdAlertFeatures store)).filter (fun z => z == -1)).length := by
  have hguard : ¬ store.length < 10 := by omega
  constructor
  · simp [crowdAlertsPage, hguard, crowdAlertFeatures]
  · simp only [crowdAlertsPage, hguard, if_false, List.length_map]
    exact zip_filter_label_length store _ hlen.symm

/-- Witness for the amended C3 theorem: on the ten-row store with a model
flagging exactly the first row, the feature matrix is the three columns of
the store and exactly one email is sent. -/
theorem crowdAlerts_fits_and_emails_flagged_witness :
    (crowdAlertsPage c3Model c3Store).fitted =
      some (c3Store.map (fun r => (r.visitor_count, r.queue_time, r.crowd_index))) ∧
    (crowdAlertsPage c3Model c3Store).emails.length =
      ((c3Model (crowdAlertFeatures c3Store)).filter (fun z => z == -1)).length :=
  crowdAlerts_fits_and_emails_flagged c3Model c3Store (by decide) (by decide)

/-- C10: with fewer than 10 stored records a view of the Crowd Alerts page
only shows the insufficient-data warning — no model is fitted and no email
is sent — and the anomaly-detection branch (a fitted model) is reached
exactly when the store has at least 10 records. -/
theorem crowdAlerts_insufficient_data_guard (model : AnomalyModel) (store : Store) :
    (store.length < 10 →
      crowdAlertsPage model store =
        { insufficientWarning := true, fitted := none, emails := [] }) ∧
    ((crowdAlertsPage model store).fitted.isSome ↔ 10 ≤ store.length) := by
  by_cases h : store.length < 10
  · constructor
    · intro _; simp [crowdAlertsPage, h]
    · simp [crowdAlertsPage, h]
  · constructor
    · intro hc; exact absurd hc h
    · simp [crowdAlertsPage, h]; omega

/-- Witness for the C10 theorem: the empty store has fewer than 10 records
and a view of the Crowd Alerts page produces only the warning. -/
theorem crowdAlerts_insufficient_data_guard_witness :
    crowdAlertsPage nullModel [] =
      { insufficientWarning := true, fitted := none, emails := [] } :=
  (crowdAlerts_insufficient_data_guard nullModel []).1 (by decide)

end TemplePulse

namespace TemplePulse

/-- An on-page message produced by `st.success` or `st.error`. -/
inductive UiMsg where
  | success (text : String)
  | error (text : String)
  deriving Repr, DecidableEq

/-- What one call of `send_alert_email` attempted and reported
(`app.py` lines 33-49): the message it built and the on-page outcome. -/
structure SendAttempt where
  sender : String
  recipient : String
  subject : String
  body : String
  report : UiMsg
  deriving Repr, DecidableEq

/-- Hard-coded alert recipient (`ALERT_EMAIL`, `app.py` line 17). -/
def ALERT_EMAIL : String := "temple-alert@example.com"

/-- `send_alert_email` (`app.py` lines 33-49): builds the message and
attempts the SMTP send; the `try`/`except` turns any failure (connect,
login or send) into an `st.error` message.  The SMTP outcome is an explicit
argument, and totality of this function is the absence of a propagated
exception. -/
def send_alert_email (smtpOutcome : Except String Unit)
    (subject body : String) : SendAttempt :=
  { sender := "nexaaudit-alert@example.com"
    recipient := ALERT_EMAIL
    subject := subject
    body := body
    report :=
      match smtpOutcome with
      | Except.ok _ => UiMsg.success "Alert dispatched to temple authorities."
      | Except.error e => UiMsg.error ("Failed to send alert: " ++ e) }

/-- The Crowd Alerts email loop (`app.py` lines 132-138): one
`send_alert_email` call per flagged row, the i-th call seeing the i-th
SMTP outcome. -/
def alertLoopAttempts (outcomes : Nat → Except String Unit)
    (emails : List (String × String)) : List SendAttempt :=
  emails.mapIdx (fun i e => send_alert_email (outcomes i) e.1 e.2)

/-- C9: `send_alert_email` never propagates a failure — every SMTP error is
reported as an on-page error message — and the Crowd Alerts loop makes one
send attempt per flagged row under every pattern of SMTP outcomes, so the
remaining rows are still processed after any single send fails. -/
theorem send_alert_email_total (e subject body : String)
    (outcomes : Nat → Except String Unit) (emails : List (String × String)) :
    (send_alert_email (Except.error e) subject body).report =
      UiMsg.error ("Failed to send alert: " ++ e) ∧
    (∀ outcome, (send_alert_email outcome subject body).report =
        UiMsg.success "Alert dispatched to temple authorities." ∨
      ∃ msg, (send_alert_email outcome subject body).report =
        UiMsg.error ("Failed to send alert: " ++ msg)) ∧
    (alertLoopAttempts outcomes emails).length = emails.length := by
  refine ⟨rfl, ?_, ?_⟩
  · intro outcome
    cases outcome with
    | ok u => exact Or.inl rfl
    | error msg => exact Or.inr ⟨msg, rfl⟩
  · simp [alertLoopAttempts]

end TemplePulse

namespace TemplePulse

/-- A circle marker of the Temple Overview heatmap (`app.py` lines 111-117). -/
structure Marker where
  lat : ℚ
  lon : ℚ
  radius : Nat
  popup : String
  deriving Repr, DecidableEq

/-- `np.random.uniform(low, high)`: `low + (high − low) · u` for the next
unit sample `u` of the underlying generator. -/
def uniformSample (low high u : ℚ) : ℚ := low + (high - low) * u

/-- A random source is valid when every unit sample lies in `[0, 1)`. -/
def validUnitStream (u : Nat → ℚ) : Prop := ∀ n, 0 ≤ u n ∧ u n < 1

/-- One marker of the heatmap loop body (`app.py` lines 109-117): a fresh
latitude draw from `uniform(21, 24)`, a fresh longitude draw from
`uniform(70, 74)`, radius the row crowd index, popup from the row fields. -/
def mkMarker (u : Nat → ℚ) (k : Nat) (r : PulseRecord) : Marker :=
  { lat := uniformSample 21 24 (u k)
    lon := uniformSample 70 74 (u (k + 1))
    radius := r.crowd_index
    popup := r.temple ++ " – " ++ r.zone ++ " (" ++ toString r.crowd_index ++ ")" }

/-- The heatmap marker loop (`app.py` lines 108-117): one marker per
filtered row, each consuming two fresh samples of the random source. -/
def heatmapMarkers (u : Nat → ℚ) : Nat → Store → List Marker
  | _, [] => []
  | k, r :: rs => mkMarker u k r :: heatmapMarkers u (k + 2) rs

/-- Coordinates of a marker, the part of it drawn from the random source. -/
def markerCoords (m : Marker) : ℚ × ℚ := (m.lat, m.lon)

/-- The marker coordinates depend only on the random source and the row
count: equally long filtered frames give identical coordinate lists. -/
theorem heatmapMarkers_coords_oblivious (u : Nat → ℚ) :
    ∀ (rs rs' : Store) (k : Nat), rs.length = rs'.length →
      (heatmapMarkers u k rs).map markerCoords =
        (heatmapMarkers u k rs').map markerCoords := by
  intro rs
  induction rs with
  | nil => intro rs' k h; cases rs' with
    | nil => rfl
    | cons y ys => simp at h
  | cons x xs ih =>
    intro rs' k h
    cases rs' with
    | nil => simp at h
    | cons y ys =>
      simp only [List.length_cons, Nat.succ.injEq] at h
      simp only [heatmapMarkers, List.map_cons]
      exact congrArg _ (ih ys (k + 2) h)

/-- C7: every heatmap marker has latitude in `[21, 24]` and longitude in
`[70, 74]`; the coordinates are a function of the random source only (two
equally long filtered frames — in particular frames differing in every
record field — receive identical coordinate lists); and two runs over the
same store may place the same record at different coordinates. -/
theorem heatmap_marker_coords_random (u : Nat → ℚ) (filtered : Store)
    (hu : validUnitStream u) :
    (∀ m ∈ heatmapMarkers u 0 filtered,
        21 ≤ m.lat ∧ m.lat ≤ 24 ∧ 70 ≤ m.lon ∧ m.lon ≤ 74) ∧
    (∀ filtered' : Store, filtered.length = filtered'.length →
        (heatmapMarkers u 0 filtered).map markerCoords =
          (heatmapMarkers u 0 filtered').map markerCoords) ∧
    (∃ (u₁ u₂ : Nat → ℚ) (r : PulseRecord), validUnitStream u₁ ∧
        validUnitStream u₂ ∧
        (heatmapMarkers u₁ 0 [r]).map markerCoords ≠
          (heatmapMarkers u₂ 0 [r]).map markerCoords) := by
  refine ⟨?_, fun rs' h => heatmapMarkers_coords_oblivious u filtered rs' 0 h, ?_⟩
  · have hbound : ∀ (rs : Store) (k : Nat), ∀ m ∈ heatmapMarkers u k rs,
        21 ≤ m.lat ∧ m.lat ≤ 24 ∧ 70 ≤ m.lon ∧ m.lon ≤ 74 := by
      intro rs
      induction rs with
      | nil => intro k m hm; simp [heatmapMarkers] at hm
      | cons x xs ih =>
        intro k m hm
        simp only [heatmapMarkers, List.mem_cons] at hm
        rcases hm with hm | hm
        · subst hm
          obtain ⟨hk0, hk1⟩ := hu k
          obtain ⟨hk0', hk1'⟩ := hu (k + 1)
          refine ⟨?_, ?_, ?_, ?_⟩ <;>
            simp only [mkMarker, uniformSample] <;> nlinarith
        · exact ih (k + 2) m hm
    exact hbound filtered 0
  · refine ⟨fun _ => 0, fun _ => 1 / 2, sampleRow 0 0, ?_, ?_, ?_⟩
    · intro n; norm_num
    · intro n; norm_num
    · simp only [heatmapMarkers, List.map_cons, List.map_nil, mkMarker,
        uniformSample, markerCoords]
      intro h
      have h2 := List.head_eq_of_cons_eq h
      have h3 := congrArg Prod.fst h2
      norm_num at h3

end TemplePulse

namespace TemplePulse

/-- Witness for the C7 theorem: a concrete valid random source and a
one-row filtered frame. -/
theorem heatmap_marker_coords_random_witness :
    (∀ m ∈ heatmapMarkers (fun _ => 1 / 2) 0 [sampleRow 0 5],
        21 ≤ m.lat ∧ m.lat ≤ 24 ∧ 70 ≤ m.lon ∧ m.lon ≤ 74) ∧
    (∀ filtered' : Store, ([sampleRow 0 5] : Store).length = filtered'.length →
        (heatmapMarkers (fun _ => 1 / 2) 0 [sampleRow 0 5]).map markerCoords =
          (heatmapMarkers (fun _ => 1 / 2) 0 filtered').map markerCoords) ∧
    (∃ (u₁ u₂ : Nat → ℚ) (r : PulseRecord), validUnitStream u₁ ∧
        validUnitStream u₂ ∧
        (heatmapMarkers u₁ 0 [r]).map markerCoords ≠
          (heatmapMarkers u₂ 0 [r]).map markerCoords) :=
  heatmap_marker_coords_random (fun _ => 1 / 2) [sampleRow 0 5]
    (fun _ => ⟨by norm_num, by norm_num⟩)

/-- C5: a record appended through the pulse form, under the constraints the
widgets themselves enforce, satisfies the PulseRecord schema: temple among
the four fixed sites, non-negative visitor count and queue time, crowd
index an integer between 0 and 10, and `payment_modes` the comma-join of
the selected subset of the payment options. -/
theorem mkNewEntry_satisfies_schema (now : Nat) (f : PulseForm)
    (hw : widgetConstraints f) :
    (mkNewEntry now f).temple ∈ TEMPLES ∧
    0 ≤ ((mkNewEntry now f).visitor_count : ℤ) ∧
    0 ≤ ((mkNewEntry now f).queue_time : ℤ) ∧
    (mkNewEntry now f).crowd_index ≤ 10 ∧
    (mkNewEntry now f).payment_modes = String.intercalate "," f.payment_modes ∧
    ∀ m ∈ f.payment_modes, m ∈ PAYMENT_OPTIONS := by
  obtain ⟨ht, hc, hp⟩ := hw
  exact ⟨ht, Int.ofNat_nonneg _, Int.ofNat_nonneg _, hc, rfl, hp⟩

/-- A concrete valid filling of the pulse form. -/
def c5Form : PulseForm :=
  { temple := "Somnath"
    zone := "Entry Gate"
    visitor_count := 120
    queue_time := 15
    top_services := "Darshan"
    payment_modes := ["Cash", "UPI"]
    crowd_index := 7
    peak_hour_flag := true }

/-- Witness for the C5 theorem at a concrete form filling. -/
theorem mkNewEntry_satisfies_schema_witness :
    (mkNewEntry 5 c5Form).temple ∈ TEMPLES ∧
    0 ≤ ((mkNewEntry 5 c5Form).visitor_count : ℤ) ∧
    0 ≤ ((mkNewEntry 5 c5Form).queue_time : ℤ) ∧
    (mkNewEntry 5 c5Form).crowd_index ≤ 10 ∧
    (mkNewEntry 5 c5Form).payment_modes =
      String.intercalate "," c5Form.payment_modes ∧
    ∀ m ∈ c5Form.payment_modes, m ∈ PAYMENT_OPTIONS :=
  mkNewEntry_satisfies_schema 5 c5Form (by decide)

end TemplePulse

namespace TemplePulse

/-- Minimal CSV quoting as pandas `to_csv` applies it (csv.QUOTE_MINIMAL):
a cell containing a comma, a quote, a CR or an LF is wrapped in quotes with
inner quotes doubled; any other cell is written verbatim. -/
def csvCell (s : String) : String :=
  if s.any (fun c => c == ',' || c == '"' || c == '\n' || c == '\r') then
    "\"" ++ s.replace "\"" "\"\"" ++ "\""
  else s

/-- How pandas renders a boolean cell. -/
def boolCell (b : Bool) : String := if b then "True" else "False"

/-- The cells of one stored row, in column order. -/
def recordCells (r : PulseRecord) : List String :=
  [toString r.timestamp, r.temple, r.zone, toString r.visitor_count,
    toString r.queue_time, r.top_services, r.payment_modes,
    toString r.crowd_index, boolCell r.peak_hour_flag]

/-- The header cells: the nine columns of the store. -/
def headerCells : List String :=
  ["timestamp", "temple", "zone", "visitor_count", "queue_time",
    "top_services", "payment_modes", "crowd_index", "peak_hour_flag"]

/-- The lines of `DataFrame.to_csv(index=False)` on the store: the header
line followed by one line per row, cells comma-joined after quoting. -/
def csvLines (store : Store) : List String :=
  (headerCells :: store.map recordCells).map
    (fun cells => String.intercalate "," (cells.map csvCell))

/-- `DataFrame.to_csv(index=False)`: the lines, each newline-terminated. -/
def pandasToCsv (store : Store) : String :=
  String.join ((csvLines store).map (fun line => line ++ "\n"))

/-- The CSV bytes of the Export Records download (`app.py` line 164):
`data.to_csv(index=False)`. -/
def exportCsvBytes (store : Store) : String := pandasToCsv store

/-- The bytes `save_data` writes to `temple_pulse.csv`
(`app.py` lines 29-30): `df.to_csv(DATA_FILE, index=False)`. -/
def saveDataContents (store : Store) : String := pandasToCsv store

/-- C6: the Export Records CSV download serializes the full store — one
line per stored row, in order, after the nine-column header, with no
filtering, reordering or transformation beyond cell quoting — and its bytes
are identical to what `save_data` writes to disk for the same store. -/
theorem exportCsv_full_store_eq_saved (store : Store) :
    exportCsvBytes store = saveDataContents store ∧
    (csvLines store).length = store.length + 1 ∧
    (csvLines store).head? =
      some (String.intercalate "," (headerCells.map csvCell)) ∧
    (csvLines store).tail =
      store.map (fun r => String.intercalate "," ((recordCells r).map csvCell)) := by
  refine ⟨rfl, ?_, rfl, ?_⟩
  · simp [csvLines]
  · simp [csvLines, Function.comp]

end TemplePulse

namespace TemplePulse

/-- The outcome of `pd.read_csv` as `load_data` sees it: a tabular frame
with named columns and raw cell rows. -/
structure RawFrame where
  cols : List String
  rows : List (List String)
  deriving Repr, DecidableEq

/-- The empty frame that `load_data` builds in its `except` branch
(`app.py` lines 24-27): the nine pulse columns and no rows. -/
def emptyPulseFrame : RawFrame := { cols := headerCells, rows := [] }

/-- `load_data` (`app.py` lines 20-27): try `pd.read_csv(DATA_FILE)` and on
any exception whatsoever return the empty nine-column frame.  The read
outcome is an explicit argument; the bare `except` is the `error` branch,
and totality of the function is the absence of a propagated exception. -/
def load_data (readResult : Except String RawFrame) : RawFrame :=
  match readResult with
  | Except.ok df => df
  | Except.error _ => emptyPulseFrame

/-- C8: `load_data` is total at its interface: every failed read — whatever
the exception — yields the empty frame with exactly the nine pulse columns
and no rows, and every read outcome yields either that frame or the frame
that was read, never a propagated exception. -/
theorem load_data_total (res : Except String RawFrame) :
    (∀ e, load_data (Except.error e) = emptyPulseFrame) ∧
    emptyPulseFrame.cols =
      ["timestamp", "temple", "zone", "visitor_count", "queue_time",
        "top_services", "payment_modes", "crowd_index", "peak_hour_flag"] ∧
    emptyPulseFrame.rows = [] ∧
    (load_data res = emptyPulseFrame ∨
      ∃ df, res = Except.ok df ∧ load_data res = df) := by
  refine ⟨fun e => rfl, rfl, rfl, ?_⟩
  cases res with
  | ok df => exact Or.inr ⟨df, rfl, rfl⟩
  | error e => exact Or.inl rfl

end TemplePulse

namespace TemplePulse

/-- What the Temple Overview page renders (`app.py` lines 91-118). -/
structure OverviewView where
  avgCrowdIndex : Option ℚ
  avgQueueTime : Option ℚ
  markers : List Marker
  deriving Repr, DecidableEq

/-- A full run of the Temple Overview page: it loads the store, renders
metrics, chart and heatmap, and — having no `save_data` call — leaves the
persisted store exactly as loaded (second component). -/
def templeOverviewRun (u : Nat → ℚ) (store : Store) (temple : String) :
    OverviewView × Store :=
  ({ avgCrowdIndex := overviewAvgCrowdIndex store temple
     avgQueueTime := overviewAvgQueueTime store temple
     markers := heatmapMarkers u 0 (overviewFiltered store temple) }, store)

/-- A full run of the Crowd Alerts page: the anomaly labels become a new
in-memory column of the loaded frame (the `store.zip labels` inside
`crowdAlertsPage`), the flagged rows are emailed, and — `save_data` never
being called — the annotated frame is dropped and the persisted store is
returned as loaded. -/
def crowdAlertsRun (model : AnomalyModel)
    (outcomes : Nat → Except String Unit) (store : Store) :
    (AlertsView × List SendAttempt) × Store :=
  let view := crowdAlertsPage model store
  ((view, alertLoopAttempts outcomes view.emails), store)

/-- The latest row of a frame by timestamp:
`sort_values("timestamp", ascending=False).head(1)` (`app.py` line 145). -/
def latestRecord (rs : Store) : Option PulseRecord :=
  rs.foldl (fun acc r =>
    match acc with
    | none => some r
    | some a => if a.timestamp < r.timestamp then some r else some a) none

/-- A full run of the Pilgrim Info page (`app.py` lines 141-156): shows the
latest filtered row and, reading only, persists the store unchanged. -/
def pilgrimInfoRun (store : Store) (temple : String) :
    Option PulseRecord × Store :=
  (latestRecord (store.filter (fun r => r.temple == temple)), store)

/-- A full run of the Export Records page (`app.py` lines 159-169) for the
CSV branch: it serializes the loaded store for download and persists the
store unchanged.  (The Excel branch serializes the same frame through
a spreadsheet writer; its byte format is presentation and out of scope.) -/
def exportRecordsRun (store : Store) : String × Store :=
  (exportCsvBytes store, store)

/-- Descending insertion by timestamp, modelling
`sort_values("timestamp", ascending=False)`. -/
def insertDescByTimestamp (r : PulseRecord) : Store → Store
  | [] => [r]
  | x :: xs =>
    if x.timestamp < r.timestamp then r :: x :: xs
    else x :: insertDescByTimestamp r xs

/-- Sort a frame by timestamp, newest first. -/
def sortDescByTimestamp : Store → Store
  | [] => []
  | x :: xs => insertDescByTimestamp x (sortDescByTimestamp xs)

/-- A full run of the Recent Logs page (`app.py` lines 172-175): shows the
twenty newest rows and persists the store unchanged. -/
def recentLogsRun (store : Store) : Store × Store :=
  ((sortDescByTimestamp store).take 20, store)

/-- C4: records are immutable once appended.  Every operation other than a
pulse-form submission — viewing Temple Overview, Crowd Alerts (whose
in-memory anomaly column is never written back), Pilgrim Info, Export
Records or Recent Logs — persists the store unchanged, and a submission
keeps every existing row, unmodified and in order, as a proper prefix. -/
theorem records_immutable_once_appended (store : Store) (u : Nat → ℚ)
    (model : AnomalyModel) (outcomes : Nat → Except String Unit)
    (temple : String) (now : Nat) (f : PulseForm) :
    (templeOverviewRun u store temple).2 = store ∧
    (crowdAlertsRun model outcomes store).2 = store ∧
    (pilgrimInfoRun store temple).2 = store ∧
    (exportRecordsRun store).2 = store ∧
    (recentLogsRun store).2 = store ∧
    (submitPulse store now f).take store.length = store ∧
    store.length < (submitPulse store now f).length :=
  ⟨rfl, rfl, rfl, rfl, rfl, by simp [submitPulse, List.take_left],
    by simp [submitPulse]⟩

end TemplePulse
